import Mathlib

/-!
Verification of the primitive algebraic type layer of RapidCFD:
the rank-1 size-3 `Vector` specialization (`VectorI.H`), the `quaternion`
rotation type (`quaternion.H`), and the `specie` composition unit
(`specie.H`).  The C++ `scalar` (double) is embedded as `ℚ`, so that the
algebraic identities the spec asserts "to floating-point precision" are
settled exactly.
-/

namespace Foam

/-- Component index `X` of the `VectorSpace` component array (position 0). -/
def X : Fin 3 := 0

/-- Component index `Y` of the `VectorSpace` component array (position 1). -/
def Y : Fin 3 := 1

/-- Component index `Z` of the `VectorSpace` component array (position 2). -/
def Z : Fin 3 := 2

/-- `Foam::Vector<Cmpt>` specialized to `Cmpt = scalar`: a rank-1, size-3
aggregate whose only storage is the inherited `VectorSpace` component array
`v_` of three scalars. -/
structure Vector where
  v_ : Fin 3 → ℚ

instance : DecidableEq Vector := fun a b =>
  decidable_of_iff (a.v_ = b.v_) (by cases a; cases b; simp)

/-- `Vector::Vector(const Cmpt& vx, const Cmpt& vy, const Cmpt& vz)`
(VectorI.H lines 48–55): writes `vx`, `vy`, `vz` into positions `X`, `Y`, `Z`
of `v_`. -/
def Vector.mk3 (vx vy vz : ℚ) : Vector :=
  ⟨fun i => if i = X then vx else if i = Y then vy else vz⟩

/-- `Vector::Vector()` (VectorI.H lines 33–36): the constructor body is empty,
so the components keep whatever values `mem` the underlying storage already
held; `mem` makes that pre-existing content explicit. -/
def Vector.mkDefault (mem : Fin 3 → ℚ) : Vector :=
  ⟨mem⟩

/-- Const accessor `Vector::x() const` (VectorI.H lines 67–72): reads
`v_[X]`. -/
def Vector.x (v : Vector) : ℚ := v.v_ X

/-- Const accessor `Vector::y() const` (VectorI.H lines 74–79): reads
`v_[Y]`. -/
def Vector.y (v : Vector) : ℚ := v.v_ Y

/-- Const accessor `Vector::z() const` (VectorI.H lines 81–86): reads
`v_[Z]`. -/
def Vector.z (v : Vector) : ℚ := v.v_ Z

/-- Mutable accessor `Vector::x()` (VectorI.H lines 89–94) used as an lvalue:
writing `c` through the returned reference updates position `X` of `v_` and
nothing else. -/
def Vector.setX (v : Vector) (c : ℚ) : Vector :=
  ⟨Function.update v.v_ X c⟩

/-- Mutable accessor `Vector::y()` (VectorI.H lines 96–101) used as an lvalue:
writing `c` through the returned reference updates position `Y` of `v_` and
nothing else. -/
def Vector.setY (v : Vector) (c : ℚ) : Vector :=
  ⟨Function.update v.v_ Y c⟩

/-- Mutable accessor `Vector::z()` (VectorI.H lines 103–108) used as an
lvalue: writing `c` through the returned reference updates position `Z` of
`v_` and nothing else. -/
def Vector.setZ (v : Vector) (c : ℚ) : Vector :=
  ⟨Function.update v.v_ Z c⟩

/-- `Vector::centre(const List<Vector>&) const` (VectorI.H lines 113–121):
returns `*this`, ignoring the list argument. -/
def Vector.centre (v : Vector) (_lst : List Vector) : Vector := v

/-- `Foam::operator&(const Vector&, const Vector&)` (VectorI.H lines
126–132): the rank-1 inner (dot) product, returning a rank-0 scalar
`v1.x*v2.x + v1.y*v2.y + v1.z*v2.z`. -/
def dotV (v1 v2 : Vector) : ℚ :=
  v1.x * v2.x + v1.y * v2.y + v1.z * v2.z

/-- `Foam::operator^(const Vector&, const Vector&)` (VectorI.H lines
135–145): the rank-1 outer (cross) product. -/
def crossV (v1 v2 : Vector) : Vector :=
  Vector.mk3
    (v1.y * v2.z - v1.z * v2.y)
    (v1.z * v2.x - v1.x * v2.z)
    (v1.x * v2.y - v1.y * v2.x)

/-- Modelled from the spec: component-wise negation of a `Vector` (the
generic `VectorSpace` component-wise arithmetic; `VectorSpace.H` is not among
the source files). -/
def negV (v : Vector) : Vector :=
  ⟨fun i => -(v.v_ i)⟩

/-- The zero vector: every component is `0`. -/
def zeroV : Vector :=
  ⟨fun _ => 0⟩

theorem Vector.ext_v (a b : Vector) (h : ∀ i, a.v_ i = b.v_ i) : a = b := by
  cases a; cases b
  simp only [Vector.mk.injEq]
  funext i
  exact h i

@[simp] theorem x_mk3 (a b c : ℚ) : (Vector.mk3 a b c).x = a := rfl

@[simp] theorem y_mk3 (a b c : ℚ) : (Vector.mk3 a b c).y = b := rfl

@[simp] theorem z_mk3 (a b c : ℚ) : (Vector.mk3 a b c).z = c := rfl

end Foam

open Foam

/-- C5: for all rank-1 size-3 vectors `a = (a1,a2,a3)` and `b = (b1,b2,b3)`,
the outer/cross product `a ^ b` is the rank-1 size-3 vector
`(a2*b3 - a3*b2, a3*b1 - a1*b3, a1*b2 - a2*b1)`, the standard determinant
expansion. -/
theorem C5_cross_product_determinant_expansion
    (a1 a2 a3 b1 b2 b3 : ℚ) :
    crossV (Vector.mk3 a1 a2 a3) (Vector.mk3 b1 b2 b3) =
      Vector.mk3 (a2 * b3 - a3 * b2) (a3 * b1 - a1 * b3) (a1 * b2 - a2 * b1) := by
  simp [crossV]

/-- C6: the cross product is anticommutative, `a ^ b` is the component-wise
negation of `b ^ a`; in particular `a ^ a` is the zero vector. -/
theorem C6_cross_product_anticommutative (a b : Vector) :
    crossV a b = negV (crossV b a) ∧ crossV a a = zeroV := by
  constructor
  · apply Vector.ext_v
    intro i
    fin_cases i <;>
      simp [crossV, negV, Vector.mk3, Vector.x, Vector.y, Vector.z, X, Y, Z] <;> ring
  · apply Vector.ext_v
    intro i
    fin_cases i <;>
      simp [crossV, zeroV, Vector.mk3, Vector.x, Vector.y, Vector.z, X, Y, Z] <;> ring

/-- C7: the inner (dot) product — whose result is a rank-0 scalar (`dotV`
returns `ℚ`, not a `Vector`) — is commutative: `a & b = b & a`. -/
theorem C7_dot_product_commutative (a b : Vector) :
    dotV a b = dotV b a := by
  simp only [dotV]
  ring

/-- C8: the named-axis accessors `x()`, `y()`, `z()` are pure views over
positions `X`, `Y`, `Z` of the underlying component array `v_`: the const
overloads read exactly those positions, and the mutable overloads write
exactly those positions, with no duplicated state. -/
theorem C8_axis_accessors_are_views (v : Vector) (c : ℚ) :
    v.x = v.v_ X ∧ v.y = v.v_ Y ∧ v.z = v.v_ Z ∧
    (v.setX c).v_ = Function.update v.v_ X c ∧
    (v.setY c).v_ = Function.update v.v_ Y c ∧
    (v.setZ c).v_ = Function.update v.v_ Z c :=
  ⟨rfl, rfl, rfl, rfl, rfl, rfl⟩

/-- C9: `v.centre(L)` returns `v` itself, unchanged and independent of the
list argument. -/
theorem C9_centre_returns_self (v : Vector) (L L' : List Vector) :
    v.centre L = v ∧ v.centre L = v.centre L' :=
  ⟨rfl, rfl⟩

/-- C10: the default constructor `Vector()` initializes none of the three
components: the constructed vector holds exactly the pre-existing storage
content `mem`, so its value is unspecified (in particular it is not
zero-initialized: two different storage contents give two different
vectors). -/
theorem C10_default_constructor_uninitialized :
    (∀ mem : Fin 3 → ℚ, (Vector.mkDefault mem).v_ = mem) ∧
    Vector.mkDefault (fun _ => 1) ≠ Vector.mkDefault (fun _ => 0) := by
  refine ⟨fun mem => rfl, ?_⟩
  intro h
  have h0 := congrFun (congrArg Vector.v_ h) 0
  simp [Vector.mkDefault] at h0

namespace Foam

/-- `Foam::specie` (specie.H lines 55–66): a mole count `nMoles_` and a
molecular weight `molWeight_` (the `name_` field is commented out in the
header). -/
structure specie where
  nMoles : ℚ
  molWeight : ℚ
deriving DecidableEq

/-- Modelled from the spec: the body of
`Foam::operator+(const specie&, const specie&)` lives in `specieI.H`, which
is not among the source files (specie.H line 154 only declares it).  Per the
spec, `a + b` is the mixture with `nMoles = a.nMoles + b.nMoles` and the
mole-weighted average molecular weight
`(a.nMoles*a.molWeight + b.nMoles*b.molWeight) / (a.nMoles + b.nMoles)`. -/
def specie.add (a b : specie) : specie :=
  { nMoles := a.nMoles + b.nMoles
    molWeight :=
      (a.nMoles * a.molWeight + b.nMoles * b.molWeight) / (a.nMoles + b.nMoles) }

/-- Modelled from the spec: the body of
`Foam::operator-(const specie&, const specie&)` lives in `specieI.H`, which
is not among the source files (specie.H line 155 only declares it).  Per the
spec, `a - b` removes `b`'s moles from `a` and recomputes the molecular
weight as the inverse of the mixing addition:
`nMoles = a.nMoles - b.nMoles` and
`molWeight = (a.nMoles*a.molWeight - b.nMoles*b.molWeight) / (a.nMoles - b.nMoles)`. -/
def specie.sub (a b : specie) : specie :=
  { nMoles := a.nMoles - b.nMoles
    molWeight :=
      (a.nMoles * a.molWeight - b.nMoles * b.molWeight) / (a.nMoles - b.nMoles) }

/-- The C++ types that occur as return types of the friend operators the
`specie` class declares. -/
inductive cppType where
  | bool
  | specie
  | scalar
deriving DecidableEq

/-- The friend operators of class `specie` together with their declared
return types, exactly as declared in specie.H lines 154–159:
`operator+`, `operator-` and `operator*` return `specie`, and so does
`operator==` (line 159: `inline friend specie operator==(const specie&, const
specie&);`). -/
inductive specieFriendOp where
  | opAdd
  | opSub
  | opMulScalar
  | opEqEq
deriving DecidableEq

/-- Declared return type of each friend operator of class `specie`
(specie.H lines 154–159). -/
def specieFriendRet : specieFriendOp → cppType
  | .opAdd => .specie
  | .opSub => .specie
  | .opMulScalar => .specie
  | .opEqEq => .specie

end Foam

/-- C1: specie addition adds the mole counts and mole-weight-averages the
molecular weights; in particular `specie(2, 28) + specie(1, 32)` has
`nMoles = 3` and `molWeight = (2*28 + 1*32)/3`. -/
theorem C1_specie_addition_mole_weighted_average :
    (∀ a b : Foam.specie,
        (a.add b).nMoles = a.nMoles + b.nMoles ∧
        (a.add b).molWeight =
          (a.nMoles * a.molWeight + b.nMoles * b.molWeight) /
            (a.nMoles + b.nMoles)) ∧
    (Foam.specie.add ⟨2, 28⟩ ⟨1, 32⟩).nMoles = 3 ∧
    (Foam.specie.add ⟨2, 28⟩ ⟨1, 32⟩).molWeight = (2 * 28 + 1 * 32) / 3 := by
  refine ⟨fun a b => ⟨rfl, rfl⟩, by norm_num [Foam.specie.add], ?_⟩
  norm_num [Foam.specie.add]

/-- C2 counterexample: the claim says `operator==` on two species returns a
boolean (`true` exactly when the fields match), but specie.H line 159
declares its return type to be `specie`, not `bool`. -/
theorem C2_counterexample_eqeq_not_boolean :
    Foam.specieFriendRet Foam.specieFriendOp.opEqEq ≠ Foam.cppType.bool := by
  decide

/-- C2 (amended): the friend `operator==` of class `specie` is declared with
return type `specie` — like the other combination operators `operator+`,
`operator-`, `operator*` — so it is not a boolean field-wise comparison. -/
theorem C2_eqeq_returns_specie :
    Foam.specieFriendRet Foam.specieFriendOp.opEqEq = Foam.cppType.specie ∧
    Foam.specieFriendRet Foam.specieFriendOp.opEqEq =
      Foam.specieFriendRet Foam.specieFriendOp.opAdd := by
  decide

/-- C3 counterexample: the claim's hypotheses hold at `a = specie(0, 5)`,
`b = specie(1, 3)` — the combined mole count `0 + 1` is positive and every
intermediate mole count (`1` for `a + b`, `0` for the result) is
non-negative — yet `(a + b) - b` is not `a`: its molecular weight involves
`0/0` (the code divides the mole-weight sum by the zero mole count) and so
does not recover `a.molWeight = 5`. -/
theorem C3_counterexample_zero_moles :
    ((0 : ℚ) + 1 > 0 ∧ (0 : ℚ) ≥ 0 ∧ (1 : ℚ) ≥ 0) ∧
    ((Foam.specie.add ⟨0, 5⟩ ⟨1, 3⟩).sub ⟨1, 3⟩) ≠ (⟨0, 5⟩ : Foam.specie) := by
  refine ⟨by norm_num, ?_⟩
  simp only [Foam.specie.add, Foam.specie.sub, ne_eq, Foam.specie.mk.injEq]
  norm_num

/-- C3 (amended): whenever `a.nMoles` is positive (not merely non-negative)
and `b.nMoles` is non-negative — so the combined mole count and every
intermediate mole count are positive or non-negative as the claim requires —
`(a + b) - b = a` exactly: specie subtraction inverts the mole-weighted
mixing addition. -/
theorem C3_sub_inverts_add (a b : Foam.specie)
    (ha : 0 < a.nMoles) (hb : 0 ≤ b.nMoles) :
    (a.add b).sub b = a := by
  obtain ⟨an, aw⟩ := a
  obtain ⟨bn, bw⟩ := b
  simp only [Foam.specie.add, Foam.specie.sub, Foam.specie.mk.injEq] at *
  have hsum : an + bn ≠ 0 := by positivity
  have han : an ≠ 0 := ne_of_gt ha
  constructor
  · ring
  · rw [div_eq_iff (by rw [show an + bn - bn = an by ring]; exact han)]
    field_simp
    ring

/-- C3 witness: the amended theorem applied at `a = specie(2, 28)`,
`b = specie(1, 32)`. -/
theorem C3_sub_inverts_add_witness :
    (0 : ℚ) < 2 ∧ (0 : ℚ) ≤ 1 ∧
    (Foam.specie.add ⟨2, 28⟩ ⟨1, 32⟩).sub ⟨1, 32⟩ = (⟨2, 28⟩ : Foam.specie) :=
  ⟨by norm_num, by norm_num,
    C3_sub_inverts_add ⟨2, 28⟩ ⟨1, 32⟩ (by norm_num) (by norm_num)⟩

namespace Foam

/-- Modelled from the spec: component-wise addition of two `Vector`s (the
generic `VectorSpace` component-wise arithmetic; `VectorSpace.H` is not among
the source files). -/
def addV (a b : Vector) : Vector :=
  ⟨fun i => a.v_ i + b.v_ i⟩

/-- Modelled from the spec: scaling of a `Vector` by a scalar, component-wise
(the generic `VectorSpace` arithmetic; `VectorSpace.H` is not among the
source files). -/
def smulV (s : ℚ) (a : Vector) : Vector :=
  ⟨fun i => s * a.v_ i⟩

/-- `Foam::quaternion` (quaternion.H lines 61–69): a scalar part `w_`
(`cos(theta/2)` for a rotation) and a vector part `v_` (the rotation
axis). -/
structure quaternion where
  w : ℚ
  v : Vector
deriving DecidableEq

/-- `quaternion(const vector& v)` (quaternion.H lines 127–129): the pure
quaternion with the given vector part and scalar part `0`. -/
def quaternion.pureQ (u : Vector) : quaternion :=
  ⟨0, u⟩

/-- Modelled from the spec: the Hamilton product
`Foam::operator*(const quaternion&, const quaternion&)` — declared at
quaternion.H line 301, body in the absent `quaternionI.H`.  Per the spec the
composition operator `*` is the Hamilton product:
`(w1*w2 - v1·v2, w1*v2 + w2*v1 + v1 × v2)`. -/
def quaternion.mul (q1 q2 : quaternion) : quaternion :=
  ⟨q1.w * q2.w - dotV q1.v q2.v,
   addV (addV (smulV q1.w q2.v) (smulV q2.w q1.v)) (crossV q1.v q2.v)⟩

/-- Modelled from the spec: `Foam::conjugate(const quaternion&)` — declared
at quaternion.H lines 245–247, body in the absent `quaternionI.H`.  Per the
spec, the conjugate negates the vector part. -/
def conjugateQ (q : quaternion) : quaternion :=
  ⟨q.w, negV q.v⟩

/-- Modelled from the spec: `Foam::magSqr(const quaternion&)` — declared at
quaternion.H line 241, body in the absent `quaternionI.H`: the squared
magnitude `w² + |v|²`. -/
def magSqrQ (q : quaternion) : ℚ :=
  q.w * q.w + dotV q.v q.v

/-- Modelled from the spec: `Foam::inv(const quaternion&)` — declared at
quaternion.H lines 253–255, body in the absent `quaternionI.H`.  Per the
spec, the inverse is the conjugate divided by the squared magnitude. -/
def invQ (q : quaternion) : quaternion :=
  ⟨(conjugateQ q).w / magSqrQ q, smulV (1 / magSqrQ q) (conjugateQ q).v⟩

/-- Modelled from the spec: `quaternion::transform(const vector&)` — declared
at quaternion.H lines 189–191, body in the absent `quaternionI.H`.  Per the
spec, it rotates the vector via the sandwich product `q v q⁻¹` restricted to
the pure-vector-quaternion subalgebra: the vector part of
`q * (0, v) * inv(q)`. -/
def quaternion.transform (q : quaternion) (u : Vector) : Vector :=
  ((q.mul (quaternion.pureQ u)).mul (invQ q)).v

/-- A rank-2, size-3×3 tensor, by rows (the `Foam::tensor` consumed by
`quaternion::R()`; `Tensor.H` is not among the source files). -/
structure tensor where
  xx : ℚ
  xy : ℚ
  xz : ℚ
  yx : ℚ
  yy : ℚ
  yz : ℚ
  zx : ℚ
  zy : ℚ
  zz : ℚ
deriving DecidableEq

/-- Modelled from the spec: the tensor–vector inner product
`operator&(const tensor&, const vector&)` (the rank-contracting inner
product of the generic container layer; its source is not among the source
files): ordinary matrix–vector multiplication. -/
def dotTV (t : tensor) (u : Vector) : Vector :=
  Vector.mk3
    (t.xx * u.x + t.xy * u.y + t.xz * u.z)
    (t.yx * u.x + t.yy * u.y + t.yz * u.z)
    (t.zx * u.x + t.zy * u.y + t.zz * u.z)

/-- Modelled from the spec: `quaternion::R()` — declared at quaternion.H
lines 160–162 ("the rotation tensor corresponding the quaternion"), body in
the absent `quaternionI.H`: the standard rotation tensor of a unit
quaternion, the representation whose trace-based inverse extraction the spec
describes for the tensor constructor. -/
def quaternion.R (q : quaternion) : tensor :=
  let w2 := q.w * q.w
  let x2 := q.v.x * q.v.x
  let y2 := q.v.y * q.v.y
  let z2 := q.v.z * q.v.z
  let txy := 2 * q.v.x * q.v.y
  let twz := 2 * q.w * q.v.z
  let txz := 2 * q.v.x * q.v.z
  let twy := 2 * q.w * q.v.y
  let tyz := 2 * q.v.y * q.v.z
  let twx := 2 * q.w * q.v.x
  { xx := w2 + x2 - y2 - z2, xy := txy - twz, xz := txz + twy
    yx := txy + twz, yy := w2 - x2 + y2 - z2, yz := tyz - twx
    zx := txz - twy, zy := tyz + twx, zz := w2 - x2 - y2 + z2 }

end Foam

/-- C4 counterexample: for the non-unit quaternion `q = (2, (0,0,0))` and the
vector `u = (1,0,0)`, the sandwich product `q u q⁻¹` gives `u` back (a scalar
quaternion commutes), but `R() & u` gives `4·u`: the claim fails for
quaternions that are not normalized. -/
theorem C4_counterexample_nonunit_quaternion :
    Foam.quaternion.transform ⟨2, Foam.Vector.mk3 0 0 0⟩ (Foam.Vector.mk3 1 0 0) ≠
      Foam.dotTV (Foam.quaternion.R ⟨2, Foam.Vector.mk3 0 0 0⟩)
        (Foam.Vector.mk3 1 0 0) := by
  intro h
  have hx := congrArg Foam.Vector.x h
  norm_num [Foam.quaternion.transform, Foam.quaternion.mul, Foam.quaternion.pureQ,
    Foam.invQ, Foam.conjugateQ, Foam.magSqrQ, Foam.dotV, Foam.addV, Foam.smulV,
    Foam.negV, Foam.crossV, Foam.dotTV, Foam.quaternion.R, Foam.Vector.mk3,
    Foam.Vector.x, Foam.Vector.y, Foam.Vector.z, Foam.X, Foam.Y, Foam.Z] at hx

/-- C4 (amended): for every quaternion `q` of unit magnitude (`w² + |v|² = 1`,
the spec's "proper rotation" invariant assumed by `R()` and `transform`) and
every vector `u`, the sandwich-product rotation `q.transform(u)` equals the
matrix–vector product `q.R() & u` exactly. -/
theorem C4_transform_matches_rotation_tensor
    (q : Foam.quaternion) (u : Foam.Vector) (hq : Foam.magSqrQ q = 1) :
    q.transform u = Foam.dotTV q.R u := by
  apply Foam.Vector.ext_v
  intro i
  fin_cases i <;>
    · simp [Foam.quaternion.transform, Foam.quaternion.mul, Foam.quaternion.pureQ,
        Foam.invQ, Foam.conjugateQ, hq, Foam.dotV, Foam.addV, Foam.smulV,
        Foam.negV, Foam.crossV, Foam.dotTV, Foam.quaternion.R, Foam.Vector.mk3,
        Foam.Vector.x, Foam.Vector.y, Foam.Vector.z, Foam.X, Foam.Y, Foam.Z]
      ring

/-- C4 witness: the amended theorem applied at the unit quaternion
`q = (0, (0,0,1))` (a half-turn about the z-axis) and `u = (1,0,0)`. -/
theorem C4_transform_matches_rotation_tensor_witness :
    Foam.magSqrQ ⟨0, Foam.Vector.mk3 0 0 1⟩ = 1 ∧
    Foam.quaternion.transform ⟨0, Foam.Vector.mk3 0 0 1⟩ (Foam.Vector.mk3 1 0 0) =
      Foam.dotTV (Foam.quaternion.R ⟨0, Foam.Vector.mk3 0 0 1⟩)
        (Foam.Vector.mk3 1 0 0) :=
  ⟨by norm_num [Foam.magSqrQ, Foam.dotV],
    C4_transform_matches_rotation_tensor ⟨0, Foam.Vector.mk3 0 0 1⟩
      (Foam.Vector.mk3 1 0 0) (by norm_num [Foam.magSqrQ, Foam.dotV])⟩
